import Mathlib

/-!
Verification of the IaC drift-detection repository core
(`scripts/drift-detection/drift-detector.py`, `scripts/remediation/auto-remediate.py`,
`scripts/remediation/rollback.py`) against its natural-language specification.

The Python sources are shallowly embedded: the external collaborators
(terraform plan result, docker inventory, per-step subprocess outcomes, the
file system) become explicit inputs, and each source function becomes a pure
Lean function over them, mirroring the source's control flow.
-/

namespace IaCDrift

/-- One drift discrepancy, mirroring the detail dicts appended by
`DriftDetector.analyze_drift`.  Fields that only some detail kinds carry
(`service`, `expected`, `actual`, `container`, `status`, `details`) are
optional, as the Python dicts are heterogeneous. -/
structure DriftDetail where
  dtype : String
  severity : String
  message : String
  service : Option String := none
  expected : Option Nat := none
  actual : Option Nat := none
  container : Option String := none
  status : Option String := none
  details : Option String := none
deriving DecidableEq

/-- Result of `DriftDetector.get_terraform_plan`: the `terraform plan
-detailed-exitcode` return code together with its stdout. -/
structure TerraformPlan where
  exit_code : Int
  stdout : String
deriving DecidableEq

/-- A container row from `docker ps --format json`, with the health status
that `docker inspect --format .State.Health.Status` would report for it
(empty string when the container carries no health probe, matching the
empty stdout the Python code strips in that case). -/
structure Container where
  names : String
  health : String
deriving DecidableEq

/-- Result of `DriftDetector.get_docker_state`. -/
structure DockerState where
  containers : List Container
  networks : List String := []
  volumes : List String := []
deriving DecidableEq

/-- The slice of the drift-detection configuration that `analyze_drift`
reads: the environment name and, per declared service, the optional
expected container count (`None` models a service entry without a
`count` key). -/
structure Config where
  environment : String := "dev"
  expected_containers : List (String × Option Nat) := []
deriving DecidableEq

/-- Whether `needle` occurs at the head of `hay` (list version of a
string comparison used below). -/
def starts_with {α : Type} [DecidableEq α] : List α → List α → Bool
  | [], _ => true
  | _ :: _, [] => false
  | a :: as, b :: bs => if a = b then starts_with as bs else false

/-- Whether `needle` occurs contiguously anywhere in `hay`. -/
def occurs_in {α : Type} [DecidableEq α] (needle : List α) : List α → Bool
  | [] => starts_with needle []
  | b :: bs => starts_with needle (b :: bs) || occurs_in needle bs

/-- Python's substring test `needle in hay`. -/
def str_contains (hay needle : String) : Bool :=
  occurs_in needle.data hay.data

/-- The `terraform_drift` detail appended when the plan exit code is 2. -/
def terraform_drift_detail (tp : TerraformPlan) : DriftDetail :=
  { dtype := "terraform_drift", severity := "high",
    message := "Terraform plan shows infrastructure changes needed",
    details := some tp.stdout }

/-- The `container_count_drift` detail appended on a count mismatch. -/
def count_detail (service : String) (expected actual : Nat) : DriftDetail :=
  { dtype := "container_count_drift", severity := "medium",
    service := some service, expected := some expected, actual := some actual,
    message := service ++ " container count mismatch" }

/-- The `health_drift` detail appended for a non-healthy container. -/
def health_detail (c : Container) : DriftDetail :=
  { dtype := "health_drift", severity := "high",
    container := some c.names, status := some c.health,
    message := "Container " ++ c.names ++ " is unhealthy" }

/-- The container list `analyze_drift` works on:
`docker_state.get('containers', []) if docker_state else []`. -/
def actual_containers (ds? : Option DockerState) : List Container :=
  match ds? with
  | some ds => ds.containers
  | none => []

/-- The body of the per-service count check inside `analyze_drift`:
skip entries without a `count` key, count the live containers whose
`Names` contain the service name, and emit a detail iff the counts
differ. -/
def count_emit (actual : List Container) (sc : String × Option Nat) :
    Option DriftDetail :=
  match sc.2 with
  | none => none
  | some expected_count =>
    let actual_count := (actual.filter (fun c => str_contains c.names sc.1)).length
    if expected_count ≠ actual_count then
      some (count_detail sc.1 expected_count actual_count)
    else none

/-- The body of the per-container health check inside `analyze_drift`:
`if health_status and health_status != 'healthy'`. -/
def health_emit (c : Container) : Option DriftDetail :=
  if c.health ≠ "" ∧ c.health ≠ "healthy" then some (health_detail c) else none

/-- One loop of `analyze_drift`: each emitted detail sets the
`drift_detected` flag to true and is appended to the running list,
exactly as the Python loops do. -/
def driftFold {α : Type} (emit : α → Option DriftDetail) :
    List α → Bool × List DriftDetail → Bool × List DriftDetail
  | [], acc => acc
  | x :: xs, acc =>
    match emit x with
    | some d => driftFold emit xs (true, acc.2 ++ [d])
    | none => driftFold emit xs acc

/-- `DriftDetector.analyze_drift`: aborts with `(False, [])` when no
terraform plan is available; otherwise runs the plan-exit-code check,
the per-service count check and the per-container health check in
order, threading the `drift_detected` flag and the detail list. -/
def analyze_drift (cfg : Config) (tp? : Option TerraformPlan)
    (ds? : Option DockerState) : Bool × List DriftDetail :=
  match tp? with
  | none => (false, [])
  | some tp =>
    let acc1 : Bool × List DriftDetail :=
      if tp.exit_code = 2 then (true, [terraform_drift_detail tp]) else (false, [])
    let actual := actual_containers ds?
    let acc2 := driftFold (count_emit actual) cfg.expected_containers acc1
    driftFold health_emit actual acc2

/-- The `plan_change` details contributed by the exit-code check alone. -/
def plan_details (tp : TerraformPlan) : List DriftDetail :=
  if tp.exit_code = 2 then [terraform_drift_detail tp] else []

lemma driftFold_snd {α : Type} (emit : α → Option DriftDetail) (xs : List α)
    (acc : Bool × List DriftDetail) :
    (driftFold emit xs acc).2 = acc.2 ++ xs.filterMap emit := by
  induction xs generalizing acc with
  | nil => simp [driftFold]
  | cons x xs ih =>
    cases h : emit x with
    | none => simp [driftFold, h, ih]
    | some d => simp [driftFold, h, ih]

lemma driftFold_fst {α : Type} (emit : α → Option DriftDetail) (xs : List α)
    (acc : Bool × List DriftDetail) :
    (driftFold emit xs acc).1 = (acc.1 || !(xs.filterMap emit).isEmpty) := by
  induction xs generalizing acc with
  | nil => simp [driftFold]
  | cons x xs ih =>
    cases h : emit x with
    | none => simp [driftFold, h, ih]
    | some d => simp [driftFold, h, ih]

lemma list_isEmpty_append {α : Type} (l1 l2 : List α) :
    (l1 ++ l2).isEmpty = (l1.isEmpty && l2.isEmpty) := by
  cases l1 <;> simp

/-- Decomposition of the detail list produced by `analyze_drift` when a
plan is available. -/
lemma analyze_drift_some_snd (cfg : Config) (tp : TerraformPlan)
    (ds? : Option DockerState) :
    (analyze_drift cfg (some tp) ds?).2
      = plan_details tp
        ++ cfg.expected_containers.filterMap (count_emit (actual_containers ds?))
        ++ (actual_containers ds?).filterMap health_emit := by
  by_cases hexit : tp.exit_code = 2 <;>
    simp [analyze_drift, plan_details, hexit, driftFold_snd, List.append_assoc]

/-- The `drift_detected` flag computed by `analyze_drift` is exactly
"the detail list is non-empty". -/
lemma analyze_drift_flag (cfg : Config) (tp? : Option TerraformPlan)
    (ds? : Option DockerState) :
    (analyze_drift cfg tp? ds?).1 = !(analyze_drift cfg tp? ds?).2.isEmpty := by
  cases tp? with
  | none => simp [analyze_drift]
  | some tp =>
    rw [analyze_drift_some_snd]
    by_cases hexit : tp.exit_code = 2 <;>
      simp [analyze_drift, plan_details, hexit, driftFold_fst, driftFold_snd,
        list_isEmpty_append, Bool.or_assoc]

/-- The detection scenario of spec Scenario A: service `web` declared
with count 3, one live matching container, no plan changes. -/
def scenario_a_config : Config :=
  { environment := "dev", expected_containers := [("web", some 3)] }

/-- A terraform plan result whose exit code signals "no changes". -/
def scenario_a_plan : TerraformPlan := { exit_code := 0, stdout := "" }

/-- A docker state with a single healthy `web` container. -/
def scenario_a_docker : DockerState :=
  { containers := [{ names := "web-1", health := "healthy" }] }

/-- `RemediationEngine.fix_container_count`'s choice of action. -/
inductive CountFixAction : Type
  | scaleUpViaTerraform (service : String) (target_count : Nat)
  | removeExcess (service : String) (target_count : Nat)
deriving DecidableEq

/-- `RemediationEngine.fix_container_count`: reads `service`, `expected`
and `actual` off the detail (crashing, modelled as `none`, when absent)
and scales up via terraform when `expected > actual`, otherwise removes
the excess containers directly. -/
def fix_container_count (d : DriftDetail) : Option CountFixAction :=
  match d.service, d.expected, d.actual with
  | some s, some e, some a =>
    some (if a < e then CountFixAction.scaleUpViaTerraform s e
          else CountFixAction.removeExcess s e)
  | _, _, _ => none

/-- Claim C3: when the terraform-plan collector fails (`analyze_drift`
receives no plan), the analysis aborts immediately and returns
`drift_detected = false` with an empty detail list, whatever the
configuration and docker state. -/
theorem c3_collector_failure_aborts (cfg : Config) (ds? : Option DockerState) :
    analyze_drift cfg none ds? = (false, []) := rfl

/-- Claim C6: with service `web` expected at count 3 and one live
matching container, `analyze_drift` emits exactly one
`container_count_drift` detail with expected 3, observed 1, severity
medium, and `fix_container_count` selects the terraform scale-up action
for it. -/
theorem c6_scenario_a_scale_up :
    analyze_drift scenario_a_config (some scenario_a_plan) (some scenario_a_docker)
      = (true, [count_detail "web" 3 1]) ∧
    (count_detail "web" 3 1).dtype = "container_count_drift" ∧
    (count_detail "web" 3 1).severity = "medium" ∧
    (count_detail "web" 3 1).expected = some 3 ∧
    (count_detail "web" 3 1).actual = some 1 ∧
    fix_container_count (count_detail "web" 3 1)
      = some (CountFixAction.scaleUpViaTerraform "web" 3) := by
  refine ⟨?_, rfl, rfl, rfl, rfl, rfl⟩
  decide

/-- The report dict built by `DriftDetector.generate_drift_report`:
derived summary counts, the detail list, and the collector snapshot. -/
structure DriftReport where
  environment : String
  drift_detected : Bool
  total_issues : Nat
  high_severity : Nat
  medium_severity : Nat
  low_severity : Nat
  drift_details : List DriftDetail
  plan_exit_code : Option Int
  changes_detected : Bool
  containers_running : Nat
  networks_count : Nat
  volumes_count : Nat
deriving DecidableEq

/-- `DriftDetector.generate_drift_report`. -/
def generate_drift_report (cfg : Config) (drift_detected : Bool)
    (drift_details : List DriftDetail) (tp? : Option TerraformPlan)
    (ds? : Option DockerState) : DriftReport :=
  { environment := cfg.environment,
    drift_detected := drift_detected,
    total_issues := drift_details.length,
    high_severity := (drift_details.filter (fun d => d.severity == "high")).length,
    medium_severity := (drift_details.filter (fun d => d.severity == "medium")).length,
    low_severity := (drift_details.filter (fun d => d.severity == "low")).length,
    drift_details := drift_details,
    plan_exit_code := tp?.map (fun tp => tp.exit_code),
    changes_detected := match tp? with | some tp => tp.exit_code == 2 | none => false,
    containers_running := (actual_containers ds?).length,
    networks_count := match ds? with | some ds => ds.networks.length | none => 0,
    volumes_count := match ds? with | some ds => ds.volumes.length | none => 0 }

/-- `DriftDetector.run_drift_detection`: analyze the collected states and
wrap the result in a report (saving and notification are external side
effects). -/
def run_drift_detection (cfg : Config) (tp? : Option TerraformPlan)
    (ds? : Option DockerState) : DriftReport :=
  generate_drift_report cfg (analyze_drift cfg tp? ds?).1
    (analyze_drift cfg tp? ds?).2 tp? ds?

/-- The detection script's `main`: `sys.exit(1 if report['drift_detected']
else 0)`. -/
def detection_exit_code (report : DriftReport) : Nat :=
  if report.drift_detected then 1 else 0

/-- The two report fields `RemediationEngine.verify_remediation` actually
reads off a drift report. -/
structure ReportCore where
  drift_detected : Bool
  drift_details : List DriftDetail
deriving DecidableEq

/-- The `new_report` that `verify_remediation` works with: the fresh
detector run's exit code decides between a synthesized all-clear report,
the latest persisted report, and a synthesized drift-with-no-details
fallback when no persisted report can be found. -/
def verify_remediation_new_report (returncode : Int)
    (latest : Option ReportCore) : ReportCore :=
  if returncode = 0 then { drift_detected := false, drift_details := [] }
  else
    match latest with
    | some r => r
    | none => { drift_detected := true, drift_details := [] }

/-- The three terminal verification outcomes of the remediation state
machine. -/
inductive Outcome : Type
  | converged
  | partlyConverged
  | failed
deriving DecidableEq

/-- The comparison branch of `verify_remediation`: success when the new
report carries no drift flag, otherwise partial convergence when fewer
issues remain than the original report had, otherwise failure. -/
def verify_remediation_outcome (new_report : ReportCore)
    (original_count : Nat) : Outcome :=
  if new_report.drift_detected = false then Outcome.converged
  else if new_report.drift_details.length < original_count then
    Outcome.partlyConverged
  else Outcome.failed

/-- The boolean `verify_remediation` returns: true only in the no-drift
branch. -/
def verify_remediation_success (new_report : ReportCore) : Bool :=
  !new_report.drift_detected

/-- The `success` flag of `RemediationEngine.run_remediation` after the
verification phase, given whether all gated remediation actions
succeeded: verification only runs (and can only confirm success) when
the actions did. -/
def run_remediation_success (actions_ok : Bool) (new_report : ReportCore) : Bool :=
  if actions_ok then verify_remediation_success new_report else false

/-- The remediation script's `main`: `sys.exit(0 if success else 1)`. -/
def remediation_exit_code (success : Bool) : Nat :=
  if success then 0 else 1

/-- Claim C1 (amended): every report produced by the detector
(`analyze_drift` wrapped by `generate_drift_report`) satisfies
`drift_detected = (details nonempty)`, and so does the all-clear report
synthesized by `verify_remediation` on detector exit 0; the claim fails
only for the fallback report synthesized on a non-zero exit with no
persisted report. -/
theorem c1_reports_invariant (cfg : Config) (tp? : Option TerraformPlan)
    (ds? : Option DockerState) :
    ((run_drift_detection cfg tp? ds?).drift_detected
        = !(run_drift_detection cfg tp? ds?).drift_details.isEmpty) ∧
    ((verify_remediation_new_report 0 none).drift_detected
        = !(verify_remediation_new_report 0 none).drift_details.isEmpty) := by
  constructor
  · simpa [run_drift_detection, generate_drift_report] using
      analyze_drift_flag cfg tp? ds?
  · decide

/-- Claim C1 counterexample: the report `verify_remediation` synthesizes
when the detector exits non-zero and no persisted report exists has
`drift_detected = true` with an empty detail list, violating the
invariant. -/
theorem c1_fallback_report_violates :
    (verify_remediation_new_report 1 none).drift_detected = true ∧
    (verify_remediation_new_report 1 none).drift_details = [] ∧
    (verify_remediation_new_report 1 none).drift_detected
      ≠ !(verify_remediation_new_report 1 none).drift_details.isEmpty := by
  decide

/-- Claim C2 (amended): for any new verification report satisfying the
DriftReport invariant, the outcome rule holds as specified: zero
remaining details ⇒ converged, fewer than the original count ⇒ partly
converged, equal or more ⇒ failed. -/
theorem c2_verification_outcome_rule (new_report : ReportCore)
    (original_count : Nat)
    (hinv : new_report.drift_detected = !new_report.drift_details.isEmpty) :
    (new_report.drift_details.length = 0 →
      verify_remediation_outcome new_report original_count = Outcome.converged) ∧
    (0 < new_report.drift_details.length →
      new_report.drift_details.length < original_count →
      verify_remediation_outcome new_report original_count = Outcome.partlyConverged) ∧
    (0 < new_report.drift_details.length →
      original_count ≤ new_report.drift_details.length →
      verify_remediation_outcome new_report original_count = Outcome.failed) := by
  obtain ⟨dd, details⟩ := new_report
  cases details with
  | nil =>
    simp only [List.isEmpty_nil, Bool.not_true] at hinv
    subst hinv
    refine ⟨fun _ => ?_, fun h _ => ?_, fun h _ => ?_⟩
    · simp [verify_remediation_outcome]
    · simp at h
    · simp at h
  | cons d ds =>
    simp only [List.isEmpty_cons, Bool.not_false] at hinv
    subst hinv
    refine ⟨fun h => ?_, fun _ hlt => ?_, fun _ hge => ?_⟩
    · simp at h
    · simp only [List.length_cons] at hlt
      simp [verify_remediation_outcome, hlt]
    · simp only [List.length_cons] at hge
      simp [verify_remediation_outcome, Nat.not_lt.mpr hge]

/-- Witness for C2, spec Scenario C: verification finds 0 remaining
details (original had 4) and the outcome is converged. -/
theorem c2_scenario_c_witness :
    verify_remediation_outcome { drift_detected := false, drift_details := [] } 4
      = Outcome.converged :=
  (c2_verification_outcome_rule
    { drift_detected := false, drift_details := [] } 4 (by decide)).1 (by decide)

/-- Claim C2 counterexample: fed the fallback report (drift flag set,
empty detail list, as synthesized when the detector exits non-zero with
no persisted report), verification sees zero remaining details yet does
not report convergence, contradicting the claim's "zero remaining
DriftDetails yields Converged". -/
theorem c2_zero_details_not_converged :
    ({ drift_detected := true, drift_details := [] } : ReportCore).drift_details.length = 0 ∧
    verify_remediation_outcome { drift_detected := true, drift_details := [] } 4
      ≠ Outcome.converged ∧
    verify_remediation_success { drift_detected := true, drift_details := [] } = false := by
  decide

/-- One step of a rollback plan as built by
`RollbackManager.create_rollback_plan` (`volume_name` is only set on
`restore_volume` steps). -/
structure RollbackStep where
  order : Nat
  action : String
  volume_name : Option String := none
deriving DecidableEq

/-- The backup metadata `RollbackManager.list_backups` derives from a
backup directory: its id and directory listing. -/
structure BackupInfo where
  id : String
  contents : List String
deriving DecidableEq

/-- `backup_info['has_terraform_state']`: whether the backup directory
contains a state-file copy. -/
def has_terraform_state (b : BackupInfo) : Bool :=
  b.contents.contains "terraform.tfstate"

/-- `backup_info['volume_backups']`: the archived volumes in the backup. -/
def volume_backups (b : BackupInfo) : List String :=
  b.contents.filter (fun f => f.endsWith ".tar.gz")

/-- The `restore_volume` step built for one volume archive. -/
def restore_volume_step (v : String) : RollbackStep :=
  { order := 3, action := "restore_volume",
    volume_name := some (v.replace ".tar.gz" "") }

/-- `RollbackManager.create_rollback_plan`: stop-containers always;
state-file restore and final terraform apply only when the backup holds
a state-file copy; one volume-restore step per archived volume; verify
always. -/
def create_rollback_plan (b : BackupInfo) : List RollbackStep :=
  [{ order := 1, action := "stop_containers" }]
    ++ (if has_terraform_state b then
          [{ order := 2, action := "restore_terraform_state" }] else [])
    ++ (volume_backups b).map restore_volume_step
    ++ (if has_terraform_state b then
          [{ order := 4, action := "terraform_apply" }] else [])
    ++ [{ order := 5, action := "verify_rollback" }]

/-- The ordering `execute_rollback_plan` sorts plan steps by. -/
def step_le (a b : RollbackStep) : Prop := a.order ≤ b.order

instance : DecidableRel step_le := fun a b => Nat.decLe a.order b.order

instance : IsTotal RollbackStep step_le := ⟨fun a b => Nat.le_total a.order b.order⟩

instance : IsTrans RollbackStep step_le := ⟨fun _ _ _ h1 h2 => Nat.le_trans h1 h2⟩

/-- The stable by-order sort `sorted(plan['steps'], key=lambda x:
x['order'])` applied by `execute_rollback_plan`. -/
def sort_steps (steps : List RollbackStep) : List RollbackStep :=
  List.insertionSort step_le steps

/-- The action dispatch inside `execute_rollback_plan`'s loop: a known
action defers to the corresponding step handler (whose external outcome
the oracle supplies); an unknown action is logged and counts as failure. -/
def dispatch_step (oracle : RollbackStep → Bool) (s : RollbackStep) : Bool :=
  if s.action = "stop_containers" ∨ s.action = "restore_terraform_state"
      ∨ s.action = "restore_volume" ∨ s.action = "terraform_apply"
      ∨ s.action = "verify_rollback" then
    oracle s
  else false

/-- One entry of the `rollback_log` list accumulated per executed step. -/
structure RollbackLogEntry where
  step : Nat
  action : String
  success : Bool
deriving DecidableEq

/-- Result of executing a rollback plan: the returned boolean, the
accumulated per-step log, and whether `_save_rollback_log` was invoked
to persist that log. -/
structure RollbackExecResult where
  result : Bool
  log : List RollbackLogEntry
  log_saved : Bool
deriving DecidableEq

/-- The step loop of `execute_rollback_plan`: execute steps in order,
append a log entry for each executed step, and return `False`
immediately on the first failing step — note the early return skips the
`_save_rollback_log` call, which only runs after the loop completes
successfully (the exception path, in which every handler's failure is
already caught and turned into a boolean, is not reachable from a
step's failure). -/
def run_rollback_steps (oracle : RollbackStep → Bool) :
    List RollbackStep → List RollbackLogEntry → RollbackExecResult
  | [], log => { result := true, log := log, log_saved := true }
  | s :: rest, log =>
    let ok := dispatch_step oracle s
    let log2 := log ++ [{ step := s.order, action := s.action, success := ok }]
    if ok then run_rollback_steps oracle rest log2
    else { result := false, log := log2, log_saved := false }

/-- `RollbackManager.execute_rollback_plan`: dry runs only print the
steps; otherwise the sorted steps are executed fail-fast. -/
def execute_rollback_plan (oracle : RollbackStep → Bool)
    (steps : List RollbackStep) (dry_run : Bool) : RollbackExecResult :=
  if dry_run then { result := true, log := [], log_saved := false }
  else run_rollback_steps oracle (sort_steps steps) []

/-- The rollback script's `main` for the `rollback` command:
`sys.exit(0 if success else 1)`. -/
def rollback_exit_code (success : Bool) : Nat :=
  if success then 0 else 1

lemma run_rollback_steps_result (oracle : RollbackStep → Bool)
    (ss : List RollbackStep) (log : List RollbackLogEntry) :
    (run_rollback_steps oracle ss log).result = ss.all (dispatch_step oracle) := by
  induction ss generalizing log with
  | nil => simp [run_rollback_steps]
  | cons s rest ih =>
    by_cases h : dispatch_step oracle s = true <;>
      simp [run_rollback_steps, h, ih]

lemma run_rollback_steps_saved (oracle : RollbackStep → Bool)
    (ss : List RollbackStep) (log : List RollbackLogEntry) :
    (run_rollback_steps oracle ss log).log_saved = ss.all (dispatch_step oracle) := by
  induction ss generalizing log with
  | nil => simp [run_rollback_steps]
  | cons s rest ih =>
    by_cases h : dispatch_step oracle s = true <;>
      simp [run_rollback_steps, h, ih]

lemma run_rollback_steps_log (oracle : RollbackStep → Bool)
    (ss : List RollbackStep) (log : List RollbackLogEntry) :
    (run_rollback_steps oracle ss log).log
      = log
        ++ (ss.takeWhile (dispatch_step oracle)).map
            (fun s => { step := s.order, action := s.action, success := true })
        ++ ((ss.dropWhile (dispatch_step oracle)).take 1).map
            (fun s => { step := s.order, action := s.action, success := false }) := by
  induction ss generalizing log with
  | nil => simp [run_rollback_steps]
  | cons s rest ih =>
    by_cases h : dispatch_step oracle s = true
    · simp [run_rollback_steps, h, ih, List.takeWhile_cons, List.dropWhile_cons]
    · simp only [Bool.not_eq_true] at h
      simp [run_rollback_steps, h, List.takeWhile_cons, List.dropWhile_cons]

/-- Claim C4 (amended): rollback execution processes the plan's steps in
ascending step order, fail-fast: every step before the first failure is
logged as successful, the first failing step is logged and ends the run
with overall result Failed, later steps are not executed (so no step is
retried) — but the accumulated partial log is persisted only when every
step succeeded; an ordinary step failure returns without persisting it. -/
theorem c4_rollback_fail_fast (oracle : RollbackStep → Bool)
    (steps : List RollbackStep) :
    (sort_steps steps).Sorted step_le ∧
    (execute_rollback_plan oracle steps false).result
      = (sort_steps steps).all (dispatch_step oracle) ∧
    (execute_rollback_plan oracle steps false).log
      = ((sort_steps steps).takeWhile (dispatch_step oracle)).map
          (fun s => { step := s.order, action := s.action, success := true })
        ++ (((sort_steps steps).dropWhile (dispatch_step oracle)).take 1).map
          (fun s => { step := s.order, action := s.action, success := false }) ∧
    (execute_rollback_plan oracle steps false).log_saved
      = (sort_steps steps).all (dispatch_step oracle) := by
  refine ⟨List.sorted_insertionSort step_le steps, ?_, ?_, ?_⟩
  · simp [execute_rollback_plan, run_rollback_steps_result]
  · simp [execute_rollback_plan, run_rollback_steps_log]
  · simp [execute_rollback_plan, run_rollback_steps_saved]

/-- An oracle under which every external step operation fails. -/
def failing_oracle : RollbackStep → Bool := fun _ => false

/-- Claim C4 counterexample: a plan whose first step fails stops with
overall result Failed and a one-entry partial log, but that partial log
is not persisted (`_save_rollback_log` is never reached), contradicting
the claim that the partial RollbackLog is persisted on first failure. -/
theorem c4_failed_step_log_not_saved :
    (execute_rollback_plan failing_oracle
        [{ order := 1, action := "stop_containers" }] false).result = false ∧
    (execute_rollback_plan failing_oracle
        [{ order := 1, action := "stop_containers" }] false).log
      = [{ step := 1, action := "stop_containers", success := false }] ∧
    (execute_rollback_plan failing_oracle
        [{ order := 1, action := "stop_containers" }] false).log_saved = false := by
  decide

/-- Claim C8: for a backup with no state-file copy, the rollback plan
contains no `restore_terraform_state` step (and no terraform apply
step): it is exactly stop-containers, one volume-restore step per
archived volume, and the final verify step. -/
theorem c8_plan_without_state_file (b : BackupInfo)
    (h : has_terraform_state b = false) :
    create_rollback_plan b
      = [{ order := 1, action := "stop_containers" }]
        ++ (volume_backups b).map restore_volume_step
        ++ [{ order := 5, action := "verify_rollback" }] := by
  simp [create_rollback_plan, h]

/-- Witness for C8 on a concrete backup holding an inventory snapshot and
two volume archives but no state-file copy. -/
theorem c8_witness :
    create_rollback_plan
        { id := "backup_20240101_000000",
          contents := ["infrastructure_state.json", "data.tar.gz", "logs.tar.gz"] }
      = [{ order := 1, action := "stop_containers" }]
        ++ (volume_backups
              { id := "backup_20240101_000000",
                contents := ["infrastructure_state.json", "data.tar.gz", "logs.tar.gz"] }).map
            restore_volume_step
        ++ [{ order := 5, action := "verify_rollback" }] :=
  c8_plan_without_state_file
    { id := "backup_20240101_000000",
      contents := ["infrastructure_state.json", "data.tar.gz", "logs.tar.gz"] }
    (by decide)

/-- Claim C5 (amended): the detection run exits non-zero iff drift was
detected, and a rollback run exits non-zero iff a sorted plan step
failed; but a remediation run (all corrective actions succeeded) exits
non-zero iff verification did not converge — a partly converged run also
exits non-zero, not only a failed one. -/
theorem c5_exit_codes :
    (∀ report : DriftReport,
      detection_exit_code report ≠ 0 ↔ report.drift_detected = true) ∧
    (∀ (new_report : ReportCore) (original_count : Nat),
      remediation_exit_code (run_remediation_success true new_report) ≠ 0
        ↔ verify_remediation_outcome new_report original_count ≠ Outcome.converged) ∧
    (∀ (oracle : RollbackStep → Bool) (steps : List RollbackStep),
      rollback_exit_code (execute_rollback_plan oracle steps false).result ≠ 0
        ↔ ¬((sort_steps steps).all (dispatch_step oracle) = true)) := by
  refine ⟨fun report => ?_, fun new_report original_count => ?_,
    fun oracle steps => ?_⟩
  · by_cases h : report.drift_detected = true <;> simp [detection_exit_code, h]
  · by_cases h : new_report.drift_detected = true
    · by_cases hlt : new_report.drift_details.length < original_count <;>
        simp [remediation_exit_code, run_remediation_success,
          verify_remediation_success, verify_remediation_outcome, h, hlt]
    · simp [remediation_exit_code, run_remediation_success,
        verify_remediation_success, verify_remediation_outcome, h]
  · by_cases h : (sort_steps steps).all (dispatch_step oracle) = true <;>
      simp [rollback_exit_code, execute_rollback_plan,
        run_rollback_steps_result, h]

/-- A concrete remaining drift detail used in the C5 counterexample. -/
def leftover_detail : DriftDetail := count_detail "web" 3 2

/-- Claim C5 counterexample: a remediation run whose verification is
partly converged (1 issue remains of an original 4, all actions
succeeded) exits with code 1, contradicting the claim that only a
Failed terminal state exits non-zero. -/
theorem c5_partly_converged_exits_nonzero :
    verify_remediation_outcome
        { drift_detected := true, drift_details := [leftover_detail] } 4
      = Outcome.partlyConverged ∧
    remediation_exit_code
        (run_remediation_success true
          { drift_detected := true, drift_details := [leftover_detail] }) = 1 := by
  decide

/-- Whether a detail is a health-check discrepancy. -/
def is_health_detail (d : DriftDetail) : Bool := d.dtype == "health_drift"

/-- Whether a detail is a container-count discrepancy. -/
def is_count_detail (d : DriftDetail) : Bool := d.dtype == "container_count_drift"

/-- The health condition of `analyze_drift` as a boolean predicate on
containers: a non-empty reported status other than `healthy`. -/
def health_flagged (c : Container) : Bool :=
  decide (c.health ≠ "" ∧ c.health ≠ "healthy")

lemma filterMap_health_emit (cs : List Container) :
    cs.filterMap health_emit = (cs.filter health_flagged).map health_detail := by
  induction cs with
  | nil => rfl
  | cons c cs ih =>
    by_cases hc : c.health ≠ "" ∧ c.health ≠ "healthy" <;>
      simp [health_emit, health_flagged, hc, ih]

lemma count_emit_not_health (actual : List Container) (sc : String × Option Nat)
    (d : DriftDetail) (h : count_emit actual sc = some d) :
    is_health_detail d = false := by
  obtain ⟨s, cnt⟩ := sc
  cases cnt with
  | none => simp [count_emit] at h
  | some n =>
    simp only [count_emit] at h
    by_cases hne :
        n ≠ (actual.filter (fun c => str_contains c.names s)).length
    · rw [if_pos hne] at h
      cases h
      rfl
    · rw [if_neg hne] at h
      cases h

lemma count_emit_is_count (actual : List Container) (sc : String × Option Nat)
    (d : DriftDetail) (h : count_emit actual sc = some d) :
    is_count_detail d = true := by
  obtain ⟨s, cnt⟩ := sc
  cases cnt with
  | none => simp [count_emit] at h
  | some n =>
    simp only [count_emit] at h
    by_cases hne :
        n ≠ (actual.filter (fun c => str_contains c.names s)).length
    · rw [if_pos hne] at h
      cases h
      rfl
    · rw [if_neg hne] at h
      cases h

lemma plan_details_filter_health (tp : TerraformPlan) :
    (plan_details tp).filter is_health_detail = [] := by
  have hfalse : is_health_detail (terraform_drift_detail tp) = false := rfl
  by_cases hexit : tp.exit_code = 2 <;>
    simp [plan_details, hexit, List.filter_cons, hfalse]

lemma plan_details_filter_count (tp : TerraformPlan) :
    (plan_details tp).filter is_count_detail = [] := by
  have hfalse : is_count_detail (terraform_drift_detail tp) = false := rfl
  by_cases hexit : tp.exit_code = 2 <;>
    simp [plan_details, hexit, List.filter_cons, hfalse]

/-- Claim C7 (amended): the health details emitted by `analyze_drift` are
exactly one high-severity `health_drift` detail per live container whose
queried status is non-empty and differs from `healthy` (so `starting`
and `unhealthy` qualify); a container whose probe is absent (empty
queried status) never contributes a detail — the code has no notion of
an "expected" probe. -/
theorem c7_health_mismatch_details (cfg : Config) (tp : TerraformPlan)
    (ds : DockerState) :
    (analyze_drift cfg (some tp) (some ds)).2.filter is_health_detail
      = (ds.containers.filter health_flagged).map health_detail := by
  rw [analyze_drift_some_snd]
  rw [List.filter_append, List.filter_append, plan_details_filter_health]
  have hcount :
      (cfg.expected_containers.filterMap
          (count_emit (actual_containers (some ds)))).filter is_health_detail
        = [] := by
    rw [List.filter_eq_nil_iff]
    intro d hd
    rw [List.mem_filterMap] at hd
    obtain ⟨sc, _, hsc⟩ := hd
    simp [count_emit_not_health _ _ _ hsc]
  have hhealth :
      ((actual_containers (some ds)).filterMap health_emit).filter is_health_detail
        = (actual_containers (some ds)).filterMap health_emit := by
    rw [List.filter_eq_self]
    intro d hd
    rw [List.mem_filterMap] at hd
    obtain ⟨c, _, hc⟩ := hd
    by_cases hcond : c.health ≠ "" ∧ c.health ≠ "healthy"
    · rw [health_emit, if_pos hcond] at hc
      cases hc
      rfl
    · rw [health_emit, if_neg hcond] at hc
      cases hc
  rw [hcount, hhealth, filterMap_health_emit]
  rfl

/-- Claim C7 counterexample: a live container whose health probe is
absent (the inspect call reports an empty status, which is not the
string `healthy`) yields no DriftDetail at all — in particular no
high-severity `health_mismatch` — whatever the declared expectations,
refuting the claim's "probe absent but expected" case. -/
theorem c7_absent_probe_no_detail :
    ("" : String) ≠ "healthy" ∧
    analyze_drift { environment := "dev", expected_containers := [("web", some 1)] }
        (some { exit_code := 0, stdout := "" })
        (some { containers := [{ names := "web-1", health := "" }] })
      = (false, []) := by
  decide

/-- The count details `analyze_drift` produces when the docker collector
failed: one per declared service with a non-zero expected count,
observed count 0. -/
def collector_failure_count_emit (sc : String × Option Nat) : Option DriftDetail :=
  match sc.2 with
  | some n => if n ≠ 0 then some (count_detail sc.1 n 0) else none
  | none => none

lemma count_emit_nil_eq :
    count_emit ([] : List Container) = collector_failure_count_emit := by
  funext sc
  obtain ⟨s, cnt⟩ := sc
  cases cnt <;> simp [count_emit, collector_failure_count_emit]

/-- Claim C10: when the docker collector fails (`docker_state` is
`None`), `analyze_drift` does not abort: the observed container list is
taken as empty, every declared service with a non-zero expected count
yields a `container_count_drift` detail with observed count 0, and the
run reports drift (given at least one such service). -/
theorem c10_docker_collector_failure_is_drift (cfg : Config)
    (tp : TerraformPlan)
    (h : ∃ p ∈ cfg.expected_containers, ∃ n, p.2 = some n ∧ 0 < n) :
    ((analyze_drift cfg (some tp) none).2.filter is_count_detail
      = cfg.expected_containers.filterMap collector_failure_count_emit) ∧
    (analyze_drift cfg (some tp) none).1 = true := by
  obtain ⟨p, hp, n, hp2, hn⟩ := h
  have hemit : count_emit ([] : List Container) p
      = some (count_detail p.1 n 0) := by
    rw [count_emit_nil_eq]
    unfold collector_failure_count_emit
    rw [hp2]
    simp [Nat.pos_iff_ne_zero.mp hn]
  constructor
  · rw [analyze_drift_some_snd]
    rw [List.filter_append, List.filter_append, plan_details_filter_count]
    have hhealth :
        ((actual_containers none).filterMap health_emit).filter is_count_detail
          = [] := rfl
    have hcount :
        (cfg.expected_containers.filterMap
            (count_emit (actual_containers none))).filter is_count_detail
          = cfg.expected_containers.filterMap
              (count_emit (actual_containers none)) := by
      rw [List.filter_eq_self]
      intro d hd
      rw [List.mem_filterMap] at hd
      obtain ⟨sc, _, hsc⟩ := hd
      exact count_emit_is_count _ _ _ hsc
    rw [hhealth, hcount]
    simp only [List.nil_append, List.append_nil]
    show cfg.expected_containers.filterMap (count_emit ([] : List Container)) = _
    rw [count_emit_nil_eq]
  · have hmem : count_detail p.1 n 0 ∈ (analyze_drift cfg (some tp) none).2 := by
      rw [analyze_drift_some_snd]
      refine List.mem_append.mpr (Or.inl (List.mem_append.mpr (Or.inr ?_)))
      exact List.mem_filterMap.mpr ⟨p, hp, hemit⟩
    rw [analyze_drift_flag]
    rcases hdet : (analyze_drift cfg (some tp) none).2 with _ | ⟨d0, rest⟩
    · rw [hdet] at hmem
      exact absurd hmem (List.not_mem_nil _)
    · rfl

/-- Witness for C10: the Scenario A configuration (service `web`
expected at count 3) with a failed docker collector yields the single
count detail with observed 0 and reports drift. -/
theorem c10_witness :
    ((analyze_drift scenario_a_config (some scenario_a_plan) none).2.filter
        is_count_detail
      = scenario_a_config.expected_containers.filterMap
          collector_failure_count_emit) ∧
    (analyze_drift scenario_a_config (some scenario_a_plan) none).1 = true :=
  c10_docker_collector_failure_is_drift scenario_a_config scenario_a_plan
    ⟨("web", some 3), by decide, 3, rfl, by decide⟩

/-- A file store: an association of paths to byte contents, first entry
wins on lookup (so a write shadows by removing the old entry). -/
abbrev FileStore := List (String × List Nat)

/-- Read a file's bytes. -/
def fs_read : FileStore → String → Option (List Nat)
  | [], _ => none
  | e :: es, p => if e.1 = p then some e.2 else fs_read es p

/-- Write a file's bytes: the new entry shadows any previous entry at
the same path under the first-entry-wins lookup. -/
def fs_write (fs : FileStore) (p : String) (c : List Nat) : FileStore :=
  (p, c) :: fs

/-- The state-file's path relative to the scripts directory. -/
def terraform_state_path : String := "../terraform/terraform.tfstate"

/-- The state-file copy's path inside a backup directory. -/
def backup_state_path (backup_dir : String) : String :=
  backup_dir ++ "/terraform.tfstate"

/-- The state-file portion of `RemediationEngine.create_backup`:
`cp terraform.tfstate backup_dir/terraform.tfstate` when the state-file
exists (the volume archives and the inventory snapshot are external
docker/process effects outside this file-store model). -/
def create_backup (fs : FileStore) (backup_dir : String) : FileStore :=
  match fs_read fs terraform_state_path with
  | some c => fs_write fs (backup_state_path backup_dir) c
  | none => fs

/-- The defensive copy `RollbackManager._restore_terraform_state` takes
of the current state-file before overwriting it. -/
def defensive_copy (fs : FileStore) (destination : String) : FileStore :=
  match fs_read fs destination with
  | some current => fs_write fs (destination ++ ".rollback-backup") current
  | none => fs

/-- `RollbackManager._restore_terraform_state`: back up the current
state-file, then copy the backup's state-file over it; `none` when the
source copy fails (missing source). -/
def restore_terraform_state (fs : FileStore) (source destination : String) :
    Option FileStore :=
  match fs_read (defensive_copy fs destination) source with
  | some c => some (fs_write (defensive_copy fs destination) destination c)
  | none => none

lemma fs_read_write_same (fs : FileStore) (p : String) (c : List Nat) :
    fs_read (fs_write fs p c) p = some c := by
  simp [fs_read, fs_write]

lemma fs_read_write_ne (fs : FileStore) (p q : String) (c : List Nat)
    (h : q ≠ p) :
    fs_read (fs_write fs p c) q = fs_read fs q := by
  have hpq : ¬(p = q) := fun hh => h hh.symm
  simp [fs_write, fs_read, hpq]

/-- Claim C9: backing up a state-file and then restoring that backup via
the rollback manager's state-file step yields a state-file with exactly
the original bytes (the backup path must differ from the live state
path and from the defensive-copy path, as it does in the backup
directory layout). -/
theorem c9_backup_restore_round_trip (fs : FileStore) (content : List Nat)
    (backup_dir : String)
    (hstate : fs_read fs terraform_state_path = some content)
    (h1 : backup_state_path backup_dir ≠ terraform_state_path)
    (h2 : backup_state_path backup_dir
        ≠ terraform_state_path ++ ".rollback-backup") :
    ∃ fs2,
      restore_terraform_state (create_backup fs backup_dir)
          (backup_state_path backup_dir) terraform_state_path = some fs2 ∧
      fs_read fs2 terraform_state_path = some content := by
  have hb : create_backup fs backup_dir
      = fs_write fs (backup_state_path backup_dir) content := by
    unfold create_backup
    rw [hstate]
  have hdest : fs_read (create_backup fs backup_dir) terraform_state_path
      = some content := by
    rw [hb, fs_read_write_ne _ _ _ _ (Ne.symm h1)]
    exact hstate
  have hdc : defensive_copy (create_backup fs backup_dir) terraform_state_path
      = fs_write (create_backup fs backup_dir)
          (terraform_state_path ++ ".rollback-backup") content := by
    unfold defensive_copy
    rw [hdest]
  have hsrc : fs_read
      (defensive_copy (create_backup fs backup_dir) terraform_state_path)
      (backup_state_path backup_dir) = some content := by
    rw [hdc, fs_read_write_ne _ _ _ _ h2, hb, fs_read_write_same]
  refine ⟨fs_write
      (defensive_copy (create_backup fs backup_dir) terraform_state_path)
      terraform_state_path content, ?_, fs_read_write_same _ _ _⟩
  unfold restore_terraform_state
  rw [hsrc]

/-- Witness for C9 on a concrete three-byte state-file and a concrete
backup directory. -/
theorem c9_witness :
    ∃ fs2,
      restore_terraform_state
          (create_backup [(terraform_state_path, [1, 2, 3])]
            "../backups/backup_20240101_000000")
          (backup_state_path "../backups/backup_20240101_000000")
          terraform_state_path = some fs2 ∧
      fs_read fs2 terraform_state_path = some [1, 2, 3] :=
  c9_backup_restore_round_trip [(terraform_state_path, [1, 2, 3])] [1, 2, 3]
    "../backups/backup_20240101_000000" (by decide) (by decide) (by decide)

end IaCDrift
